import Mathlib

/-!
Verification of the ROI calculation engine of the marketing-cost-calculator
repository.  The engine is the `calc` block of `src/app/page.tsx` (duplicated
verbatim in `src/app/es/page.tsx` and in the unnamed source variant): a pure
function from business inputs to derived financial metrics.

JavaScript numbers are modelled by exact rationals `ℚ`; the `Infinity`
sentinel produced by the guarded ratios is modelled by an explicit
constructor of the `ROI.Val` type, so every guarded ratio is a total
function into `ROI.Val`.
-/

namespace ROI

/-- A JavaScript numeric result that is either a finite number (modelled as a
rational) or the positive-infinity sentinel produced by a guarded ratio. -/
inductive Val where
  | fin : ℚ → Val
  | infinity : Val
deriving DecidableEq, Repr

/-- A named upside scenario (`type Scenario` in `src/app/page.tsx`): a name,
a display-only performance-uplift proxy, and a sales-uplift fraction. -/
structure Scenario where
  name : String
  perfUplift : ℚ
  salesUplift : ℚ
deriving DecidableEq, Repr

/-- The inputs of the calculation engine: the seven scalar input fields and
the ordered scenario list (the `useState` inputs read by the `calc` block). -/
structure Inputs where
  revenue : ℚ
  marketingPct : ℚ
  contentPct : ℚ
  demoAllocPct : ℚ
  replacementPct : ℚ
  investmentYear1 : ℚ
  grossMargin : ℚ
  scenarios : List Scenario
deriving DecidableEq, Repr

/-- Source line `const marketingBudget = revenue * marketingPct` (src/app/page.tsx:64). -/
def marketingBudget (i : Inputs) : ℚ :=
  i.revenue * i.marketingPct

/-- Source line `const contentBudget = marketingBudget * contentPct` (src/app/page.tsx:65). -/
def contentBudget (i : Inputs) : ℚ :=
  marketingBudget i * i.contentPct

/-- Source line `const demoBudgetYear1 = contentBudget * demoAllocPct` (src/app/page.tsx:67). -/
def demoBudgetYear1 (i : Inputs) : ℚ :=
  contentBudget i * i.demoAllocPct

/-- Source line `const replacedProduction = demoBudgetYear1 * replacementPct` (src/app/page.tsx:68). -/
def replacedProduction (i : Inputs) : ℚ :=
  demoBudgetYear1 i * i.replacementPct

/-- Source line `const demoBudgetYear2 = demoBudgetYear1 - replacedProduction` (src/app/page.tsx:70). -/
def demoBudgetYear2 (i : Inputs) : ℚ :=
  demoBudgetYear1 i - replacedProduction i

/-- Source line `const annualSavings = demoBudgetYear1 - demoBudgetYear2` (src/app/page.tsx:71). -/
def annualSavings (i : Inputs) : ℚ :=
  demoBudgetYear1 i - demoBudgetYear2 i

/-- Source line `const reductionPct = demoBudgetYear1 === 0 ? 0 :
(demoBudgetYear1 - demoBudgetYear2) / demoBudgetYear1` (src/app/page.tsx:73). -/
def reductionPct (i : Inputs) : ℚ :=
  if demoBudgetYear1 i = 0 then 0
  else (demoBudgetYear1 i - demoBudgetYear2 i) / demoBudgetYear1 i

/-- Source line `const paybackMonthsBase = replacedProduction === 0 ? Infinity :
(investmentYear1 / replacedProduction) * 12` (src/app/page.tsx:76). -/
def paybackMonthsBase (i : Inputs) : Val :=
  if replacedProduction i = 0 then Val.infinity
  else Val.fin ((i.investmentYear1 / replacedProduction i) * 12)

/-- Source line `const roi2yBase = investmentYear1 === 0 ? Infinity :
(annualSavings - investmentYear1) / investmentYear1` (src/app/page.tsx:79). -/
def roi2yBase (i : Inputs) : Val :=
  if i.investmentYear1 = 0 then Val.infinity
  else Val.fin ((annualSavings i - i.investmentYear1) / i.investmentYear1)

/-- One entry of `scenarioResults`: `{ ...s, incrementalSales,
incrementalProfit, roi2yTotal, paybackMonthsUpside }` (src/app/page.tsx:96). -/
structure ScenarioResult where
  name : String
  perfUplift : ℚ
  salesUplift : ℚ
  incrementalSales : ℚ
  incrementalProfit : ℚ
  roi2yTotal : Val
  paybackMonthsUpside : Val
deriving DecidableEq, Repr

/-- The body of `scenarios.map((s) => ...)` (src/app/page.tsx:82-97): the four
derived values per scenario, bundled with the spread of the input scenario. -/
def scenarioResult (i : Inputs) (s : Scenario) : ScenarioResult :=
  let incrementalSales := i.revenue * s.salesUplift
  let incrementalProfit := incrementalSales * i.grossMargin
  let roi2yTotal :=
    if i.investmentYear1 = 0 then Val.infinity
    else Val.fin ((annualSavings i + incrementalProfit - i.investmentYear1) / i.investmentYear1)
  let paybackMonthsUpside :=
    if annualSavings i + incrementalProfit = 0 then Val.infinity
    else Val.fin ((i.investmentYear1 / (annualSavings i + incrementalProfit)) * 12)
  { name := s.name, perfUplift := s.perfUplift, salesUplift := s.salesUplift,
    incrementalSales := incrementalSales, incrementalProfit := incrementalProfit,
    roi2yTotal := roi2yTotal, paybackMonthsUpside := paybackMonthsUpside }

/-- The record returned by the `calc` block (src/app/page.tsx:99-110). -/
structure Results where
  marketingBudget : ℚ
  contentBudget : ℚ
  demoBudgetYear1 : ℚ
  replacedProduction : ℚ
  demoBudgetYear2 : ℚ
  annualSavings : ℚ
  reductionPct : ℚ
  paybackMonthsBase : Val
  roi2yBase : Val
  scenarioResults : List ScenarioResult
deriving DecidableEq, Repr

/-- The calculation engine: the `calc` block of `src/app/page.tsx:62-110`,
assembling the nine base metrics and the mapped scenario results. -/
def compute (i : Inputs) : Results :=
  { marketingBudget := marketingBudget i,
    contentBudget := contentBudget i,
    demoBudgetYear1 := demoBudgetYear1 i,
    replacedProduction := replacedProduction i,
    demoBudgetYear2 := demoBudgetYear2 i,
    annualSavings := annualSavings i,
    reductionPct := reductionPct i,
    paybackMonthsBase := paybackMonthsBase i,
    roi2yBase := roi2yBase i,
    scenarioResults := i.scenarios.map (scenarioResult i) }

/-- The default inputs of the page (src/app/page.tsx:43-60): revenue
14,000,000, marketingPct 0.07, contentPct 0.2, demoAllocPct 0.5,
replacementPct 0.6, investmentYear1 50,000, grossMargin 0.4, and the
default scenario list A/B/C. -/
def defaultInputs : Inputs :=
  { revenue := 14000000,
    marketingPct := 0.07,
    contentPct := 0.2,
    demoAllocPct := 0.5,
    replacementPct := 0.6,
    investmentYear1 := 50000,
    grossMargin := 0.4,
    scenarios :=
      [ { name := "A", perfUplift := 0.05, salesUplift := 0.0025 },
        { name := "B", perfUplift := 0.1, salesUplift := 0.005 },
        { name := "C", perfUplift := 0.15, salesUplift := 0.01 } ] }

/-- The `calc` block of the Spanish page, `src/app/es/page.tsx:172-220`,
translated as the let-chain it is written as. -/
def computeES (i : Inputs) : Results :=
  let marketingBudget := i.revenue * i.marketingPct
  let contentBudget := marketingBudget * i.contentPct
  let demoBudgetYear1 := contentBudget * i.demoAllocPct
  let replacedProduction := demoBudgetYear1 * i.replacementPct
  let demoBudgetYear2 := demoBudgetYear1 - replacedProduction
  let annualSavings := demoBudgetYear1 - demoBudgetYear2
  let reductionPct :=
    if demoBudgetYear1 = 0 then 0 else (demoBudgetYear1 - demoBudgetYear2) / demoBudgetYear1
  let paybackMonthsBase :=
    if replacedProduction = 0 then Val.infinity
    else Val.fin ((i.investmentYear1 / replacedProduction) * 12)
  let roi2yBase :=
    if i.investmentYear1 = 0 then Val.infinity
    else Val.fin ((annualSavings - i.investmentYear1) / i.investmentYear1)
  let scenarioResults := i.scenarios.map (fun s =>
    let incrementalSales := i.revenue * s.salesUplift
    let incrementalProfit := incrementalSales * i.grossMargin
    let roi2yTotal :=
      if i.investmentYear1 = 0 then Val.infinity
      else Val.fin ((annualSavings + incrementalProfit - i.investmentYear1) / i.investmentYear1)
    let paybackMonthsUpside :=
      if annualSavings + incrementalProfit = 0 then Val.infinity
      else Val.fin ((i.investmentYear1 / (annualSavings + incrementalProfit)) * 12)
    { name := s.name, perfUplift := s.perfUplift, salesUplift := s.salesUplift,
      incrementalSales := incrementalSales, incrementalProfit := incrementalProfit,
      roi2yTotal := roi2yTotal, paybackMonthsUpside := paybackMonthsUpside })
  { marketingBudget := marketingBudget,
    contentBudget := contentBudget,
    demoBudgetYear1 := demoBudgetYear1,
    replacedProduction := replacedProduction,
    demoBudgetYear2 := demoBudgetYear2,
    annualSavings := annualSavings,
    reductionPct := reductionPct,
    paybackMonthsBase := paybackMonthsBase,
    roi2yBase := roi2yBase,
    scenarioResults := scenarioResults }

/-- The `calc` block of the unnamed source variant,
`src/unnamed/part_000:143-191`, translated as the let-chain it is written as. -/
def computeUN (i : Inputs) : Results :=
  let marketingBudget := i.revenue * i.marketingPct
  let contentBudget := marketingBudget * i.contentPct
  let demoBudgetYear1 := contentBudget * i.demoAllocPct
  let replacedProduction := demoBudgetYear1 * i.replacementPct
  let demoBudgetYear2 := demoBudgetYear1 - replacedProduction
  let annualSavings := demoBudgetYear1 - demoBudgetYear2
  let reductionPct :=
    if demoBudgetYear1 = 0 then 0 else (demoBudgetYear1 - demoBudgetYear2) / demoBudgetYear1
  let paybackMonthsBase :=
    if replacedProduction = 0 then Val.infinity
    else Val.fin ((i.investmentYear1 / replacedProduction) * 12)
  let roi2yBase :=
    if i.investmentYear1 = 0 then Val.infinity
    else Val.fin ((annualSavings - i.investmentYear1) / i.investmentYear1)
  let scenarioResults := i.scenarios.map (fun s =>
    let incrementalSales := i.revenue * s.salesUplift
    let incrementalProfit := incrementalSales * i.grossMargin
    let roi2yTotal :=
      if i.investmentYear1 = 0 then Val.infinity
      else Val.fin ((annualSavings + incrementalProfit - i.investmentYear1) / i.investmentYear1)
    let paybackMonthsUpside :=
      if annualSavings + incrementalProfit = 0 then Val.infinity
      else Val.fin ((i.investmentYear1 / (annualSavings + incrementalProfit)) * 12)
    { name := s.name, perfUplift := s.perfUplift, salesUplift := s.salesUplift,
      incrementalSales := incrementalSales, incrementalProfit := incrementalProfit,
      roi2yTotal := roi2yTotal, paybackMonthsUpside := paybackMonthsUpside })
  { marketingBudget := marketingBudget,
    contentBudget := contentBudget,
    demoBudgetYear1 := demoBudgetYear1,
    replacedProduction := replacedProduction,
    demoBudgetYear2 := demoBudgetYear2,
    annualSavings := annualSavings,
    reductionPct := reductionPct,
    paybackMonthsBase := paybackMonthsBase,
    roi2yBase := roi2yBase,
    scenarioResults := scenarioResults }

/-- An all-zero input with one scenario, used to exercise every guard. -/
def zeroInputs : Inputs :=
  { revenue := 0, marketingPct := 0, contentPct := 0, demoAllocPct := 0,
    replacementPct := 0, investmentYear1 := 0, grossMargin := 0,
    scenarios := [ { name := "A", perfUplift := 0, salesUplift := 0 } ] }

/-- The default inputs with only the scenarios' `perfUplift` fields altered. -/
def perfVariantInputs : Inputs :=
  { defaultInputs with scenarios :=
      [ { name := "A", perfUplift := 0.99, salesUplift := 0.0025 },
        { name := "B", perfUplift := 0.42, salesUplift := 0.005 },
        { name := "C", perfUplift := 0, salesUplift := 0.01 } ] }

/-- The default inputs with only scenario index 1 changed (every field). -/
def scenBInputs : Inputs :=
  { defaultInputs with scenarios :=
      [ { name := "A", perfUplift := 0.05, salesUplift := 0.0025 },
        { name := "Z", perfUplift := 0.5, salesUplift := 0.9 },
        { name := "C", perfUplift := 0.15, salesUplift := 0.01 } ] }

/-- C1: for every input, `compute` produces the base results by exactly the
nine-step chain in the stated order (including the guarded ratios), and on the
default inputs it returns marketingBudget 980000, contentBudget 196000,
demoBudgetYear1 98000, replacedProduction 58800, demoBudgetYear2 39200,
annualSavings 58800, reductionPct 0.60, roi2yBase 0.176, and for scenario A
incrementalSales 35000, incrementalProfit 14000, roi2yTotal 0.456. -/
theorem C1_compute_chain :
    (∀ i : Inputs,
      (compute i).marketingBudget = i.revenue * i.marketingPct ∧
      (compute i).contentBudget = (compute i).marketingBudget * i.contentPct ∧
      (compute i).demoBudgetYear1 = (compute i).contentBudget * i.demoAllocPct ∧
      (compute i).replacedProduction = (compute i).demoBudgetYear1 * i.replacementPct ∧
      (compute i).demoBudgetYear2 = (compute i).demoBudgetYear1 - (compute i).replacedProduction ∧
      (compute i).annualSavings = (compute i).demoBudgetYear1 - (compute i).demoBudgetYear2 ∧
      (compute i).reductionPct =
        (if (compute i).demoBudgetYear1 = 0 then 0
         else ((compute i).demoBudgetYear1 - (compute i).demoBudgetYear2) /
           (compute i).demoBudgetYear1) ∧
      (compute i).paybackMonthsBase =
        (if (compute i).replacedProduction = 0 then Val.infinity
         else Val.fin ((i.investmentYear1 / (compute i).replacedProduction) * 12)) ∧
      (compute i).roi2yBase =
        (if i.investmentYear1 = 0 then Val.infinity
         else Val.fin (((compute i).annualSavings - i.investmentYear1) / i.investmentYear1))) ∧
    (compute defaultInputs).marketingBudget = 980000 ∧
    (compute defaultInputs).contentBudget = 196000 ∧
    (compute defaultInputs).demoBudgetYear1 = 98000 ∧
    (compute defaultInputs).replacedProduction = 58800 ∧
    (compute defaultInputs).demoBudgetYear2 = 39200 ∧
    (compute defaultInputs).annualSavings = 58800 ∧
    (compute defaultInputs).reductionPct = 0.6 ∧
    (compute defaultInputs).roi2yBase = Val.fin 0.176 ∧
    ((compute defaultInputs).scenarioResults.map
      (fun r => (r.incrementalSales, r.incrementalProfit, r.roi2yTotal)))[0]? =
      some (35000, 14000, Val.fin 0.456) := by
  refine ⟨fun i => ⟨rfl, rfl, rfl, rfl, rfl, rfl, rfl, rfl, rfl⟩,
    ?_, ?_, ?_, ?_, ?_, ?_, ?_, ?_, ?_⟩ <;>
    norm_num [compute, scenarioResult, roi2yBase, reductionPct, annualSavings,
      demoBudgetYear2, replacedProduction, demoBudgetYear1, contentBudget,
      marketingBudget, defaultInputs]

/-- C2: for every input, the scenario results are exactly the input scenarios
mapped, in order, to the record carrying the scenario's name, perfUplift and
salesUplift unchanged together with incrementalSales, incrementalProfit and
the two guarded ratios, and the result list has the same length as the input
scenario list. -/
theorem C2_scenario_map (i : Inputs) :
    (compute i).scenarioResults = i.scenarios.map (fun s =>
      { name := s.name, perfUplift := s.perfUplift, salesUplift := s.salesUplift,
        incrementalSales := i.revenue * s.salesUplift,
        incrementalProfit := i.revenue * s.salesUplift * i.grossMargin,
        roi2yTotal :=
          if i.investmentYear1 = 0 then Val.infinity
          else Val.fin ((annualSavings i + i.revenue * s.salesUplift * i.grossMargin -
            i.investmentYear1) / i.investmentYear1),
        paybackMonthsUpside :=
          if annualSavings i + i.revenue * s.salesUplift * i.grossMargin = 0 then Val.infinity
          else Val.fin ((i.investmentYear1 /
            (annualSavings i + i.revenue * s.salesUplift * i.grossMargin)) * 12) }) ∧
    (compute i).scenarioResults.length = i.scenarios.length := by
  exact ⟨rfl, by simp [compute]⟩

/-- C3: for every input, the result fields annualSavings and
replacedProduction are exactly equal, even though annualSavings is computed
as demoBudgetYear1 - demoBudgetYear2 rather than copied. -/
theorem C3_annualSavings_eq_replacedProduction (i : Inputs) :
    (compute i).annualSavings = (compute i).replacedProduction := by
  simp [compute, annualSavings, demoBudgetYear2]

/-- C4: `compute` is total (a Lean function), and every zero-denominator case
resolves to a defined sentinel: reductionPct is 0 when demoBudgetYear1 = 0,
while paybackMonthsBase, roi2yBase, roi2yTotal and paybackMonthsUpside are
the positive-infinity sentinel when their denominators are 0. -/
theorem C4_guard_sentinels (i : Inputs) :
    (demoBudgetYear1 i = 0 → (compute i).reductionPct = 0) ∧
    (replacedProduction i = 0 → (compute i).paybackMonthsBase = Val.infinity) ∧
    (i.investmentYear1 = 0 → (compute i).roi2yBase = Val.infinity) ∧
    (i.investmentYear1 = 0 →
      ∀ r ∈ (compute i).scenarioResults, r.roi2yTotal = Val.infinity) ∧
    (∀ s ∈ i.scenarios,
      annualSavings i + i.revenue * s.salesUplift * i.grossMargin = 0 →
        (scenarioResult i s).paybackMonthsUpside = Val.infinity) := by
  refine ⟨fun h => ?_, fun h => ?_, fun h => ?_, fun h r hr => ?_, fun s _ h => ?_⟩
  · simp [compute, reductionPct, h]
  · simp [compute, paybackMonthsBase, h]
  · simp [compute, roi2yBase, h]
  · simp only [compute, List.mem_map] at hr
    obtain ⟨s, _, rfl⟩ := hr
    simp [scenarioResult, h]
  · simp [scenarioResult, h]

/-- C4 witness: at the all-zero input every guard fires and yields its
sentinel. -/
theorem C4_witness :
    (compute zeroInputs).reductionPct = 0 ∧
    (compute zeroInputs).paybackMonthsBase = Val.infinity ∧
    (compute zeroInputs).roi2yBase = Val.infinity ∧
    (scenarioResult zeroInputs { name := "A", perfUplift := 0, salesUplift := 0 }).roi2yTotal =
      Val.infinity ∧
    (scenarioResult zeroInputs { name := "A", perfUplift := 0, salesUplift := 0 }).paybackMonthsUpside =
      Val.infinity := by
  have h := C4_guard_sentinels zeroInputs
  have hd : demoBudgetYear1 zeroInputs = 0 := by
    norm_num [demoBudgetYear1, contentBudget, marketingBudget, zeroInputs]
  have hrp : replacedProduction zeroInputs = 0 := by
    norm_num [replacedProduction, demoBudgetYear1, contentBudget, marketingBudget, zeroInputs]
  have hmem : ({ name := "A", perfUplift := 0, salesUplift := 0 } : Scenario) ∈
      zeroInputs.scenarios := by simp [zeroInputs]
  refine ⟨h.1 hd, h.2.1 hrp, h.2.2.1 rfl, ?_, ?_⟩
  · exact h.2.2.2.1 rfl _ (by simp [compute, zeroInputs])
  · refine h.2.2.2.2 _ hmem ?_
    norm_num [annualSavings, demoBudgetYear2, replacedProduction, demoBudgetYear1,
      contentBudget, marketingBudget, zeroInputs]

/-- C5: paybackMonthsBase is the positive-infinity sentinel iff
replacedProduction = 0; otherwise it is the finite value
(investmentYear1 / replacedProduction) * 12. -/
theorem C5_paybackMonthsBase_spec (i : Inputs) :
    ((compute i).paybackMonthsBase = Val.infinity ↔ replacedProduction i = 0) ∧
    (replacedProduction i ≠ 0 →
      (compute i).paybackMonthsBase =
        Val.fin ((i.investmentYear1 / replacedProduction i) * 12)) := by
  constructor
  · show (paybackMonthsBase i = Val.infinity ↔ _)
    unfold paybackMonthsBase
    split_ifs with h <;> simp [h]
  · intro h
    simp [compute, paybackMonthsBase, h]

/-- C5 witness: on the default inputs replacedProduction is 58800, nonzero,
and paybackMonthsBase is the finite value 500/49 (about 10.2 months). -/
theorem C5_witness :
    replacedProduction defaultInputs ≠ 0 ∧
    (compute defaultInputs).paybackMonthsBase = Val.fin (500 / 49) := by
  have hne : replacedProduction defaultInputs ≠ 0 := by
    norm_num [replacedProduction, demoBudgetYear1, contentBudget, marketingBudget, defaultInputs]
  refine ⟨hne, ?_⟩
  rw [(C5_paybackMonthsBase_spec defaultInputs).2 hne]
  norm_num [replacedProduction, demoBudgetYear1, contentBudget, marketingBudget, defaultInputs]

/-- C6: roi2yBase is the positive-infinity sentinel iff investmentYear1 = 0,
and when investmentYear1 = 0 every scenario's roi2yTotal is also the
sentinel. -/
theorem C6_roi2yBase_spec (i : Inputs) :
    ((compute i).roi2yBase = Val.infinity ↔ i.investmentYear1 = 0) ∧
    (i.investmentYear1 = 0 →
      ∀ r ∈ (compute i).scenarioResults, r.roi2yTotal = Val.infinity) := by
  constructor
  · show (roi2yBase i = Val.infinity ↔ _)
    unfold roi2yBase
    split_ifs with h <;> simp [h]
  · intro h r hr
    simp only [compute, List.mem_map] at hr
    obtain ⟨s, _, rfl⟩ := hr
    simp [scenarioResult, h]

/-- C6 witness: at the all-zero input (investmentYear1 = 0) roi2yBase and the
scenario's roi2yTotal are both the sentinel. -/
theorem C6_witness :
    (compute zeroInputs).roi2yBase = Val.infinity ∧
    (scenarioResult zeroInputs { name := "A", perfUplift := 0, salesUplift := 0 }).roi2yTotal =
      Val.infinity := by
  have h := C6_roi2yBase_spec zeroInputs
  exact ⟨h.1.mpr rfl, h.2 rfl _ (by simp [compute, zeroInputs])⟩

/-- A scenario's result depends only on the scalar fields revenue,
investmentYear1, grossMargin and on annualSavings (never on the scenario
list), so it is unchanged when those agree between two inputs. -/
theorem scenarioResult_congr (i1 i2 : Inputs) (s : Scenario)
    (h1 : i1.revenue = i2.revenue) (h6 : i1.investmentYear1 = i2.investmentYear1)
    (h7 : i1.grossMargin = i2.grossMargin)
    (has : annualSavings i1 = annualSavings i2) :
    scenarioResult i1 s = scenarioResult i2 s := by
  simp [scenarioResult, h1, h6, h7, has]

/-- C7: altering only the scenarios' perfUplift fields between two calls
leaves every base metric and every scenario's incrementalSales,
incrementalProfit, roi2yTotal and paybackMonthsUpside identical, and each
result's perfUplift is the input's perfUplift unchanged. -/
theorem C7_perfUplift_noninterference (i1 i2 : Inputs)
    (h1 : i1.revenue = i2.revenue) (h2 : i1.marketingPct = i2.marketingPct)
    (h3 : i1.contentPct = i2.contentPct) (h4 : i1.demoAllocPct = i2.demoAllocPct)
    (h5 : i1.replacementPct = i2.replacementPct)
    (h6 : i1.investmentYear1 = i2.investmentYear1) (h7 : i1.grossMargin = i2.grossMargin)
    (hs : List.Forall₂ (fun s t => s.name = t.name ∧ s.salesUplift = t.salesUplift)
      i1.scenarios i2.scenarios) :
    (compute i1).marketingBudget = (compute i2).marketingBudget ∧
    (compute i1).contentBudget = (compute i2).contentBudget ∧
    (compute i1).demoBudgetYear1 = (compute i2).demoBudgetYear1 ∧
    (compute i1).replacedProduction = (compute i2).replacedProduction ∧
    (compute i1).demoBudgetYear2 = (compute i2).demoBudgetYear2 ∧
    (compute i1).annualSavings = (compute i2).annualSavings ∧
    (compute i1).reductionPct = (compute i2).reductionPct ∧
    (compute i1).paybackMonthsBase = (compute i2).paybackMonthsBase ∧
    (compute i1).roi2yBase = (compute i2).roi2yBase ∧
    List.Forall₂ (fun r t =>
      r.name = t.name ∧ r.salesUplift = t.salesUplift ∧
      r.incrementalSales = t.incrementalSales ∧
      r.incrementalProfit = t.incrementalProfit ∧
      r.roi2yTotal = t.roi2yTotal ∧ r.paybackMonthsUpside = t.paybackMonthsUpside)
      (compute i1).scenarioResults (compute i2).scenarioResults ∧
    (compute i1).scenarioResults.map ScenarioResult.perfUplift =
      i1.scenarios.map Scenario.perfUplift := by
  have hmb : marketingBudget i1 = marketingBudget i2 := by
    rw [marketingBudget, marketingBudget, h1, h2]
  have hcb : contentBudget i1 = contentBudget i2 := by
    rw [contentBudget, contentBudget, hmb, h3]
  have hd1 : demoBudgetYear1 i1 = demoBudgetYear1 i2 := by
    rw [demoBudgetYear1, demoBudgetYear1, hcb, h4]
  have hrp : replacedProduction i1 = replacedProduction i2 := by
    rw [replacedProduction, replacedProduction, hd1, h5]
  have hd2 : demoBudgetYear2 i1 = demoBudgetYear2 i2 := by
    rw [demoBudgetYear2, demoBudgetYear2, hd1, hrp]
  have has : annualSavings i1 = annualSavings i2 := by
    rw [annualSavings, annualSavings, hd1, hd2]
  have hrd : reductionPct i1 = reductionPct i2 := by
    rw [reductionPct, reductionPct, hd1, hd2]
  have hpb : paybackMonthsBase i1 = paybackMonthsBase i2 := by
    rw [paybackMonthsBase, paybackMonthsBase, hrp, h6]
  have hroi : roi2yBase i1 = roi2yBase i2 := by
    rw [roi2yBase, roi2yBase, has, h6]
  refine ⟨hmb, hcb, hd1, hrp, hd2, has, hrd, hpb, hroi, ?_, ?_⟩
  · show List.Forall₂ _ (i1.scenarios.map (scenarioResult i1))
      (i2.scenarios.map (scenarioResult i2))
    rw [List.forall₂_map_left_iff, List.forall₂_map_right_iff]
    refine hs.imp ?_
    intro s t hst
    refine ⟨hst.1, hst.2, ?_, ?_, ?_, ?_⟩ <;>
      simp [scenarioResult, h1, h6, h7, has, hst.2]
  · show (i1.scenarios.map (scenarioResult i1)).map ScenarioResult.perfUplift =
      i1.scenarios.map Scenario.perfUplift
    rw [List.map_map]
    rfl

/-- C7 witness: the default inputs and the same inputs with all three
perfUplift values altered give identical financial results, and perfUplift
passes through unchanged. -/
theorem C7_witness :
    (compute defaultInputs).marketingBudget = (compute perfVariantInputs).marketingBudget ∧
    (compute defaultInputs).contentBudget = (compute perfVariantInputs).contentBudget ∧
    (compute defaultInputs).demoBudgetYear1 = (compute perfVariantInputs).demoBudgetYear1 ∧
    (compute defaultInputs).replacedProduction = (compute perfVariantInputs).replacedProduction ∧
    (compute defaultInputs).demoBudgetYear2 = (compute perfVariantInputs).demoBudgetYear2 ∧
    (compute defaultInputs).annualSavings = (compute perfVariantInputs).annualSavings ∧
    (compute defaultInputs).reductionPct = (compute perfVariantInputs).reductionPct ∧
    (compute defaultInputs).paybackMonthsBase = (compute perfVariantInputs).paybackMonthsBase ∧
    (compute defaultInputs).roi2yBase = (compute perfVariantInputs).roi2yBase ∧
    List.Forall₂ (fun r t =>
      r.name = t.name ∧ r.salesUplift = t.salesUplift ∧
      r.incrementalSales = t.incrementalSales ∧
      r.incrementalProfit = t.incrementalProfit ∧
      r.roi2yTotal = t.roi2yTotal ∧ r.paybackMonthsUpside = t.paybackMonthsUpside)
      (compute defaultInputs).scenarioResults (compute perfVariantInputs).scenarioResults ∧
    (compute defaultInputs).scenarioResults.map ScenarioResult.perfUplift =
      defaultInputs.scenarios.map Scenario.perfUplift := by
  exact C7_perfUplift_noninterference defaultInputs perfVariantInputs
    rfl rfl rfl rfl rfl rfl rfl
    (by simp [defaultInputs, perfVariantInputs])

/-- C8: changing only scenario k's fields between two calls leaves every base
metric and every scenario result at an index other than k identical. -/
theorem C8_scenario_independence (i1 i2 : Inputs) (k : ℕ)
    (h1 : i1.revenue = i2.revenue) (h2 : i1.marketingPct = i2.marketingPct)
    (h3 : i1.contentPct = i2.contentPct) (h4 : i1.demoAllocPct = i2.demoAllocPct)
    (h5 : i1.replacementPct = i2.replacementPct)
    (h6 : i1.investmentYear1 = i2.investmentYear1) (h7 : i1.grossMargin = i2.grossMargin)
    (hs : ∀ j, j ≠ k → i1.scenarios[j]? = i2.scenarios[j]?) :
    (compute i1).marketingBudget = (compute i2).marketingBudget ∧
    (compute i1).contentBudget = (compute i2).contentBudget ∧
    (compute i1).demoBudgetYear1 = (compute i2).demoBudgetYear1 ∧
    (compute i1).replacedProduction = (compute i2).replacedProduction ∧
    (compute i1).demoBudgetYear2 = (compute i2).demoBudgetYear2 ∧
    (compute i1).annualSavings = (compute i2).annualSavings ∧
    (compute i1).reductionPct = (compute i2).reductionPct ∧
    (compute i1).paybackMonthsBase = (compute i2).paybackMonthsBase ∧
    (compute i1).roi2yBase = (compute i2).roi2yBase ∧
    ∀ j, j ≠ k →
      (compute i1).scenarioResults[j]? = (compute i2).scenarioResults[j]? := by
  have hmb : marketingBudget i1 = marketingBudget i2 := by
    rw [marketingBudget, marketingBudget, h1, h2]
  have hcb : contentBudget i1 = contentBudget i2 := by
    rw [contentBudget, contentBudget, hmb, h3]
  have hd1 : demoBudgetYear1 i1 = demoBudgetYear1 i2 := by
    rw [demoBudgetYear1, demoBudgetYear1, hcb, h4]
  have hrp : replacedProduction i1 = replacedProduction i2 := by
    rw [replacedProduction, replacedProduction, hd1, h5]
  have hd2 : demoBudgetYear2 i1 = demoBudgetYear2 i2 := by
    rw [demoBudgetYear2, demoBudgetYear2, hd1, hrp]
  have has : annualSavings i1 = annualSavings i2 := by
    rw [annualSavings, annualSavings, hd1, hd2]
  have hrd : reductionPct i1 = reductionPct i2 := by
    rw [reductionPct, reductionPct, hd1, hd2]
  have hpb : paybackMonthsBase i1 = paybackMonthsBase i2 := by
    rw [paybackMonthsBase, paybackMonthsBase, hrp, h6]
  have hroi : roi2yBase i1 = roi2yBase i2 := by
    rw [roi2yBase, roi2yBase, has, h6]
  refine ⟨hmb, hcb, hd1, hrp, hd2, has, hrd, hpb, hroi, ?_⟩
  intro j hj
  show (i1.scenarios.map (scenarioResult i1))[j]? =
    (i2.scenarios.map (scenarioResult i2))[j]?
  rw [List.getElem?_map, List.getElem?_map, hs j hj]
  cases h : i2.scenarios[j]? with
  | none => rfl
  | some s => simp [scenarioResult_congr i1 i2 s h1 h6 h7 has]

/-- C8 witness: replacing every field of scenario index 1 of the default
inputs leaves the base metrics and the results at indices 0 and 2 unchanged. -/
theorem C8_witness :
    (compute defaultInputs).annualSavings = (compute scenBInputs).annualSavings ∧
    (compute defaultInputs).roi2yBase = (compute scenBInputs).roi2yBase ∧
    (compute defaultInputs).scenarioResults[0]? = (compute scenBInputs).scenarioResults[0]? ∧
    (compute defaultInputs).scenarioResults[2]? = (compute scenBInputs).scenarioResults[2]? := by
  have h := C8_scenario_independence defaultInputs scenBInputs 1
    rfl rfl rfl rfl rfl rfl rfl
    (by
      intro j hj
      match j with
      | 0 => rfl
      | 1 => exact absurd rfl hj
      | 2 => rfl
      | n + 3 => rfl)
  exact ⟨h.2.2.2.2.2.1, h.2.2.2.2.2.2.2.2.1,
    h.2.2.2.2.2.2.2.2.2 0 (by decide), h.2.2.2.2.2.2.2.2.2 2 (by decide)⟩

/-- C9: the calculation blocks of the English page, the Spanish page and the
unnamed source variant are extensionally equal: on every input all three
produce the same Results value. -/
theorem C9_locale_variants_agree (i : Inputs) :
    compute i = computeES i ∧ compute i = computeUN i :=
  ⟨rfl, rfl⟩

/-- C10: whenever demoBudgetYear1 is nonzero, reductionPct equals the input
replacementPct exactly: the displayed cost-reduction percentage is the
replacement fraction echoed back. -/
theorem C10_reductionPct_echoes_replacementPct (i : Inputs)
    (h : demoBudgetYear1 i ≠ 0) :
    (compute i).reductionPct = i.replacementPct := by
  show reductionPct i = i.replacementPct
  unfold reductionPct demoBudgetYear2 replacedProduction
  rw [if_neg h]
  field_simp

/-- C10 witness: on the default inputs demoBudgetYear1 = 98000 is nonzero and
reductionPct is 0.6, the input replacementPct. -/
theorem C10_witness :
    demoBudgetYear1 defaultInputs ≠ 0 ∧ (compute defaultInputs).reductionPct = 0.6 := by
  have hne : demoBudgetYear1 defaultInputs ≠ 0 := by
    norm_num [demoBudgetYear1, contentBudget, marketingBudget, defaultInputs]
  refine ⟨hne, ?_⟩
  rw [C10_reductionPct_echoes_replacementPct defaultInputs hne]
  norm_num [defaultInputs]

end ROI
